import Mathlib

/-!
Verification of the provenance/invalidation metadata model
(`src/snapshot/metadata.rs`): `InstanceMetadata` with its fluent builder,
`InstanceContext`, `IgnoreGlob`, `InstigatingSource`, the Debug rendering,
the `From` conversions, and the serde (de)serialization contracts.

Paths (`PathBuf`) are modelled as their platform-independent string form.
-/

namespace Rojo

/-- Filesystem paths, modelled by their string rendering. -/
abbrev PathBuf := String

/-- Modelled from the spec: `ProjectNode` is an externally-defined
project-node structure (from the project module, not part of this core) and
is opaque here.  We model the opaque value by a single string that stands
both for its external Debug rendering and for its serialized payload. -/
structure ProjectNode where
  payload : String
  deriving DecidableEq

/-- `enum InstigatingSource`: tagged identifier of what produced an instance. -/
inductive InstigatingSource where
  | Path (path : PathBuf)
  | ProjectNode (name : String) (node : ProjectNode)
  deriving DecidableEq

/-- `struct IgnoreGlob`: a glob pattern plus the base path it is anchored to.
The compiled `globset::Glob` is external; we carry its pattern text. -/
structure IgnoreGlob where
  base_path : PathBuf
  glob : String
  deriving DecidableEq

/-- `struct InstanceContext`: shared bundle of ignore rules.  The `Arc`
sharing is not structurally observable; we carry the rule list. -/
structure InstanceContext where
  ignore_paths : List IgnoreGlob
  deriving DecidableEq

/-- `impl Default for InstanceContext`: empty rule list. -/
def InstanceContext.default : InstanceContext := ⟨[]⟩

/-- `struct InstanceMetadata`. -/
structure InstanceMetadata where
  ignore_unknown_instances : Bool
  instigating_source : Option InstigatingSource
  relevant_paths : List PathBuf
  context : InstanceContext
  deriving DecidableEq

/-- `InstanceMetadata::new`. -/
def InstanceMetadata.new : InstanceMetadata :=
  ⟨false, none, [], InstanceContext.default⟩

/-- `impl Default for InstanceMetadata` delegates to `new`. -/
def InstanceMetadata.default : InstanceMetadata := InstanceMetadata.new

/-- Builder `InstanceMetadata::ignore_unknown_instances`
(`Self { ignore_unknown_instances, ..self }`). -/
def InstanceMetadata.ignore_unknown_instances' (m : InstanceMetadata)
    (b : Bool) : InstanceMetadata :=
  ⟨b, m.instigating_source, m.relevant_paths, m.context⟩

/-- Builder `InstanceMetadata::instigating_source`
(`Self { instigating_source: Some(instigating_source.into()), ..self }`);
the argument is the result of the `Into` conversion. -/
def InstanceMetadata.instigating_source' (m : InstanceMetadata)
    (s : InstigatingSource) : InstanceMetadata :=
  ⟨m.ignore_unknown_instances, some s, m.relevant_paths, m.context⟩

/-- Builder `InstanceMetadata::relevant_paths`
(`input.into_iter().map(|value| value.into()).collect()`); the per-element
`Into<PathBuf>` is the identity on already-converted paths. -/
def InstanceMetadata.relevant_paths' (m : InstanceMetadata)
    (input : List PathBuf) : InstanceMetadata :=
  ⟨m.ignore_unknown_instances, m.instigating_source,
    input.map (fun value => value), m.context⟩

/-- Builder `InstanceMetadata::context` (`context: context.clone()`). -/
def InstanceMetadata.context' (m : InstanceMetadata)
    (c : InstanceContext) : InstanceMetadata :=
  ⟨m.ignore_unknown_instances, m.instigating_source, m.relevant_paths, c⟩

/-- `Path::to_owned` on a borrowed path: the same path value. -/
def PathBuf.to_owned (p : PathBuf) : PathBuf := p

/-- `impl From<PathBuf> for InstigatingSource`. -/
def InstigatingSource.from_pathbuf (path : PathBuf) : InstigatingSource :=
  InstigatingSource.Path path

/-- `impl From<&Path> for InstigatingSource` (`path.to_owned()`). -/
def InstigatingSource.from_path_ref (path : PathBuf) : InstigatingSource :=
  InstigatingSource.Path path.to_owned

/-- External Debug rendering of the opaque `ProjectNode` payload (`{:?}`). -/
def ProjectNode.debugFmt (node : ProjectNode) : String := node.payload

/-- `impl fmt::Debug for InstigatingSource`, transcribed exactly: the
`ProjectNode` arm writes no closing parenthesis. -/
def InstigatingSource.debugFmt : InstigatingSource → String
  | InstigatingSource.Path path => "Path(" ++ path ++ ")"
  | InstigatingSource.ProjectNode name node =>
      "ProjectNode(" ++ name ++ ": " ++ node.debugFmt

/-- A string has matching, balanced parentheses in the counting sense:
as many opening as closing parentheses. -/
def parenBalanced (s : String) : Bool :=
  s.toList.count (Char.ofNat 40) == s.toList.count (Char.ofNat 41)

/-- Serialized values, for the serde contracts (JSON-like data). -/
inductive Json where
  | null
  | bool (b : Bool)
  | str (s : String)
  | arr (items : List Json)
  | obj (fields : List (String × Json))

/-- Modelled from the spec: `path_serializer::serialize_absolute` (not part
of this core) renders a path as an absolute, platform-independent string;
paths in this model are already such strings, so it is the identity. -/
def serialize_absolute (path : PathBuf) : String := path

/-- `path_serializer::serialize_vec_absolute`: each element as an absolute
string. -/
def serialize_vec_absolute (paths : List PathBuf) : Json :=
  Json.arr (paths.map (fun p => Json.str (serialize_absolute p)))

/-- Modelled from the spec: glob rules serialize via an externally-defined
glob textual syntax (`crate::serde_glob`, not part of this core); the model
carries the pattern text and emits it as a string. -/
def serialize_glob (g : String) : Json := Json.str g

/-- Serde serialization of `IgnoreGlob` (derived, field order preserved). -/
def IgnoreGlob.toJson (g : IgnoreGlob) : Json :=
  Json.obj [("base_path", Json.str (serialize_absolute g.base_path)),
            ("glob", serialize_glob g.glob)]

/-- Serde serialization of `InstanceContext` (derived). -/
def InstanceContext.toJson (c : InstanceContext) : Json :=
  Json.obj [("ignore_paths", Json.arr (c.ignore_paths.map IgnoreGlob.toJson))]

/-- Modelled from the spec: the opaque `ProjectNode` payload serializes to
its externally-determined form, carried as a string in the model. -/
def ProjectNode.toJson (n : ProjectNode) : Json := Json.str n.payload

/-- Serde serialization of `InstigatingSource` (derived, externally tagged):
`Path` with its absolute string, `ProjectNode` as the two-part structure. -/
def InstigatingSource.toJson : InstigatingSource → Json
  | InstigatingSource.Path path =>
      Json.obj [("Path", Json.str (serialize_absolute path))]
  | InstigatingSource.ProjectNode name node =>
      Json.obj [("ProjectNode", Json.arr [Json.str name, node.toJson])]

/-- Serde serialization of `InstanceMetadata` (derived): all fields in
declaration order, with `instigating_source` skipped when `None`
(`skip_serializing_if = "Option::is_none"`). -/
def InstanceMetadata.toJson (m : InstanceMetadata) : Json :=
  Json.obj
    ([("ignore_unknown_instances", Json.bool m.ignore_unknown_instances)]
      ++ (match m.instigating_source with
          | none => []
          | some s => [("instigating_source", s.toJson)])
      ++ [("relevant_paths", serialize_vec_absolute m.relevant_paths),
          ("context", m.context.toJson)])

/-- Field lookup in a serialized map (serde map access, first match). -/
def jlookup (fields : List (String × Json)) (key : String) : Option Json :=
  match fields with
  | [] => none
  | (k, v) :: rest => if k == key then some v else jlookup rest key

/-- The keys a serialized object carries. -/
def Json.objKeys : Json → List String
  | Json.obj fields => fields.map Prod.fst
  | _ => []

/-- Deserialization of the opaque `ProjectNode` payload. -/
def ProjectNode.fromJson : Json → Option ProjectNode
  | Json.str s => some ⟨s⟩
  | _ => none

/-- Serde deserialization of `InstigatingSource` (externally tagged). -/
def InstigatingSource.fromJson : Json → Option InstigatingSource
  | Json.obj [("Path", Json.str p)] => some (InstigatingSource.Path p)
  | Json.obj [("ProjectNode", Json.arr [Json.str name, payload])] =>
      (ProjectNode.fromJson payload).map
        (fun node => InstigatingSource.ProjectNode name node)
  | _ => none

/-- Deserialization of a serialized path list. -/
def decodePaths : List Json → Option (List PathBuf)
  | [] => some []
  | Json.str p :: rest => (decodePaths rest).map (fun ps => p :: ps)
  | _ => none

/-- Serde deserialization of `IgnoreGlob`. -/
def IgnoreGlob.fromJson : Json → Option IgnoreGlob
  | Json.obj fields =>
      match jlookup fields "base_path", jlookup fields "glob" with
      | some (Json.str b), some (Json.str g) => some ⟨b, g⟩
      | _, _ => none
  | _ => none

/-- Deserialization of a serialized glob-rule list. -/
def decodeGlobs : List Json → Option (List IgnoreGlob)
  | [] => some []
  | j :: rest =>
      match IgnoreGlob.fromJson j, decodeGlobs rest with
      | some g, some gs => some (g :: gs)
      | _, _ => none

/-- Serde deserialization of `InstanceContext`. -/
def InstanceContext.fromJson : Json → Option InstanceContext
  | Json.obj fields =>
      match jlookup fields "ignore_paths" with
      | some (Json.arr items) => (decodeGlobs items).map (fun gs => ⟨gs⟩)
      | _ => none
  | _ => none

/-- Serde deserialization of `InstanceMetadata`: field order insensitive,
unknown fields ignored, the `Option` field defaults to `None` when the key
is absent (serde's behaviour for `Option` fields). -/
def InstanceMetadata.fromJson : Json → Option InstanceMetadata
  | Json.obj fields =>
      match jlookup fields "ignore_unknown_instances",
            jlookup fields "relevant_paths", jlookup fields "context" with
      | some (Json.bool b), some (Json.arr ps), some ctxJ =>
          match decodePaths ps, InstanceContext.fromJson ctxJ with
          | some paths, some ctx =>
              match jlookup fields "instigating_source" with
              | none => some ⟨b, none, paths, ctx⟩
              | some sj =>
                  (InstigatingSource.fromJson sj).map
                    (fun s => ⟨b, some s, paths, ctx⟩)
          | _, _ => none
      | _, _, _ => none
  | _ => none

/-- Derived `PartialEq` on `InstigatingSource`: variant tags and payloads. -/
def InstigatingSource.eqv : InstigatingSource → InstigatingSource → Bool
  | InstigatingSource.Path p, InstigatingSource.Path q => p == q
  | InstigatingSource.ProjectNode n1 x1, InstigatingSource.ProjectNode n2 x2 =>
      n1 == n2 && x1.payload == x2.payload
  | _, _ => false

/-- `PartialEq` on `Option<InstigatingSource>`. -/
def optSourceEqv : Option InstigatingSource → Option InstigatingSource → Bool
  | none, none => true
  | some a, some b => a.eqv b
  | _, _ => false

/-- Derived `PartialEq` on `IgnoreGlob`. -/
def IgnoreGlob.eqv (a b : IgnoreGlob) : Bool :=
  a.base_path == b.base_path && a.glob == b.glob

/-- Element-wise `PartialEq` on `Vec<IgnoreGlob>`. -/
def listGlobEqv : List IgnoreGlob → List IgnoreGlob → Bool
  | [], [] => true
  | a :: arest, b :: brest => a.eqv b && listGlobEqv arest brest
  | _, _ => false

/-- Derived `PartialEq` on `InstanceContext`. -/
def InstanceContext.eqv (a b : InstanceContext) : Bool :=
  listGlobEqv a.ignore_paths b.ignore_paths

/-- Derived `PartialEq` on `InstanceMetadata`: conjunction over all fields. -/
def InstanceMetadata.eqv (a b : InstanceMetadata) : Bool :=
  a.ignore_unknown_instances == b.ignore_unknown_instances
    && optSourceEqv a.instigating_source b.instigating_source
    && a.relevant_paths == b.relevant_paths
    && InstanceContext.eqv a.context b.context

/-! Helper lemmas shared by the serde round-trip claims. -/

theorem decodePaths_round (ps : List PathBuf) :
    decodePaths (ps.map (fun p => Json.str (serialize_absolute p))) = some ps := by
  induction ps with
  | nil => rfl
  | cons p rest ih =>
      simp [serialize_absolute] at ih
      simp [decodePaths, serialize_absolute, ih]

theorem ignoreGlob_round (g : IgnoreGlob) :
    IgnoreGlob.fromJson (IgnoreGlob.toJson g) = some g := by
  cases g
  simp [IgnoreGlob.toJson, IgnoreGlob.fromJson, jlookup, serialize_absolute,
    serialize_glob]

theorem decodeGlobs_round (gs : List IgnoreGlob) :
    decodeGlobs (gs.map IgnoreGlob.toJson) = some gs := by
  induction gs with
  | nil => rfl
  | cons g rest ih => simp [decodeGlobs, ignoreGlob_round, ih]

theorem context_round (c : InstanceContext) :
    InstanceContext.fromJson (InstanceContext.toJson c) = some c := by
  cases c
  simp [InstanceContext.toJson, InstanceContext.fromJson, jlookup,
    decodeGlobs_round]

theorem source_round (s : InstigatingSource) :
    InstigatingSource.fromJson (InstigatingSource.toJson s) = some s := by
  cases s with
  | Path path =>
      simp [InstigatingSource.toJson, InstigatingSource.fromJson,
        serialize_absolute]
  | ProjectNode name node =>
      cases node
      simp [InstigatingSource.toJson, InstigatingSource.fromJson,
        ProjectNode.toJson, ProjectNode.fromJson]

theorem metadata_round (m : InstanceMetadata) :
    InstanceMetadata.fromJson (InstanceMetadata.toJson m) = some m := by
  cases m with
  | mk b src ps c =>
      cases src with
      | none =>
          simp [InstanceMetadata.toJson, InstanceMetadata.fromJson, jlookup,
            serialize_vec_absolute, decodePaths_round, context_round]
      | some s =>
          simp [InstanceMetadata.toJson, InstanceMetadata.fromJson, jlookup,
            serialize_vec_absolute, decodePaths_round, context_round,
            source_round]

/-! Helper lemmas for the structural-equality claim. -/

theorem instigatingSource_eqv_iff (a b : InstigatingSource) :
    a.eqv b = true ↔ a = b := by
  cases a with
  | Path p => cases b <;> simp [InstigatingSource.eqv]
  | ProjectNode n1 x1 =>
      cases x1
      cases b with
      | Path q => simp [InstigatingSource.eqv]
      | ProjectNode n2 x2 =>
          cases x2
          simp [InstigatingSource.eqv]

theorem optSourceEqv_iff (a b : Option InstigatingSource) :
    optSourceEqv a b = true ↔ a = b := by
  cases a <;> cases b <;> simp [optSourceEqv, instigatingSource_eqv_iff]

theorem ignoreGlob_eqv_iff (a b : IgnoreGlob) :
    a.eqv b = true ↔ a = b := by
  cases a
  cases b
  simp [IgnoreGlob.eqv]

theorem listGlobEqv_iff (a b : List IgnoreGlob) :
    listGlobEqv a b = true ↔ a = b := by
  induction a generalizing b with
  | nil => cases b <;> simp [listGlobEqv]
  | cons x xs ih =>
      cases b <;> simp [listGlobEqv, ignoreGlob_eqv_iff, ih]

theorem instanceContext_eqv_iff (a b : InstanceContext) :
    InstanceContext.eqv a b = true ↔ a = b := by
  cases a
  cases b
  simp [InstanceContext.eqv, listGlobEqv_iff]

theorem instanceMetadata_eqv_iff (a b : InstanceMetadata) :
    InstanceMetadata.eqv a b = true ↔
      (a.ignore_unknown_instances = b.ignore_unknown_instances
        ∧ a.instigating_source = b.instigating_source
        ∧ a.relevant_paths = b.relevant_paths
        ∧ a.context = b.context) := by
  simp [InstanceMetadata.eqv, optSourceEqv_iff, instanceContext_eqv_iff,
    and_assoc]

/-! The claim theorems. -/

/-- C1: evaluation of the Debug rendering at a concrete input.  The
`ProjectNode` arm of `impl fmt::Debug for InstigatingSource` writes
`ProjectNode({}: {:?}` with no closing parenthesis, so the rendering of the
`ProjectNode` variant is not balanced, contrary to the claim that both
variants render with matching, balanced delimiters; the `Path` arm is
balanced (for parenthesis-free paths). -/
theorem C1_projectnode_debug_unbalanced :
    InstigatingSource.debugFmt
        (InstigatingSource.ProjectNode "Foo" ⟨"node"⟩)
      = "ProjectNode(Foo: node"
    ∧ parenBalanced (InstigatingSource.debugFmt
        (InstigatingSource.ProjectNode "Foo" ⟨"node"⟩)) = false
    ∧ parenBalanced (InstigatingSource.debugFmt
        (InstigatingSource.Path "/proj/foo.lua")) = true := by
  refine ⟨rfl, ?_, ?_⟩ <;> decide

/-- C2: every builder step returns a value in which only the named field is
changed and every other field equals its value in the input, and the
concrete scenario from the spec: starting from the default `m0`, setting the
instigating source to `Path("/proj/foo.lua")` and the relevant paths to the
two-element list yields exactly those fields with the flag and context still
at their defaults, while the default value itself is the unchanged default
record. -/
theorem C2_builder_frame :
    (∀ (m : InstanceMetadata) (b : Bool),
      (m.ignore_unknown_instances' b).ignore_unknown_instances = b
        ∧ (m.ignore_unknown_instances' b).instigating_source
            = m.instigating_source
        ∧ (m.ignore_unknown_instances' b).relevant_paths = m.relevant_paths
        ∧ (m.ignore_unknown_instances' b).context = m.context)
    ∧ (∀ (m : InstanceMetadata) (s : InstigatingSource),
      (m.instigating_source' s).instigating_source = some s
        ∧ (m.instigating_source' s).ignore_unknown_instances
            = m.ignore_unknown_instances
        ∧ (m.instigating_source' s).relevant_paths = m.relevant_paths
        ∧ (m.instigating_source' s).context = m.context)
    ∧ (∀ (m : InstanceMetadata) (ps : List PathBuf),
      (m.relevant_paths' ps).relevant_paths = ps
        ∧ (m.relevant_paths' ps).ignore_unknown_instances
            = m.ignore_unknown_instances
        ∧ (m.relevant_paths' ps).instigating_source = m.instigating_source
        ∧ (m.relevant_paths' ps).context = m.context)
    ∧ (∀ (m : InstanceMetadata) (c : InstanceContext),
      (m.context' c).context = c
        ∧ (m.context' c).ignore_unknown_instances
            = m.ignore_unknown_instances
        ∧ (m.context' c).instigating_source = m.instigating_source
        ∧ (m.context' c).relevant_paths = m.relevant_paths)
    ∧ ((InstanceMetadata.new.instigating_source'
          (InstigatingSource.Path "/proj/foo.lua")).relevant_paths'
          ["/proj/foo.lua", "/proj/foo.meta.json"]).instigating_source
        = some (InstigatingSource.Path "/proj/foo.lua")
    ∧ ((InstanceMetadata.new.instigating_source'
          (InstigatingSource.Path "/proj/foo.lua")).relevant_paths'
          ["/proj/foo.lua", "/proj/foo.meta.json"]).relevant_paths
        = ["/proj/foo.lua", "/proj/foo.meta.json"]
    ∧ ((InstanceMetadata.new.instigating_source'
          (InstigatingSource.Path "/proj/foo.lua")).relevant_paths'
          ["/proj/foo.lua", "/proj/foo.meta.json"]).ignore_unknown_instances
        = false
    ∧ ((InstanceMetadata.new.instigating_source'
          (InstigatingSource.Path "/proj/foo.lua")).relevant_paths'
          ["/proj/foo.lua", "/proj/foo.meta.json"]).context
        = InstanceContext.default
    ∧ InstanceMetadata.new = ⟨false, none, [], InstanceContext.default⟩ := by
  refine ⟨fun m b => ⟨rfl, rfl, rfl, rfl⟩, fun m s => ⟨rfl, rfl, rfl, rfl⟩,
    fun m ps => ⟨?_, rfl, rfl, rfl⟩, fun m c => ⟨rfl, rfl, rfl, rfl⟩,
    rfl, rfl, rfl, rfl, rfl⟩
  simp [InstanceMetadata.relevant_paths']

/-- C3: serializing a metadata value whose `instigating_source` is `None`
omits the `instigating_source` key entirely (no key, hence no null), and
deserializing the result yields the value with the field absent;
serializing a value whose source is `Some(Path("/a/b"))` and deserializing
reproduces the identical path. -/
theorem C3_serde_skip_and_roundtrip :
    (∀ (b : Bool) (ps : List PathBuf) (c : InstanceContext),
      "instigating_source"
        ∉ Json.objKeys (InstanceMetadata.toJson ⟨b, none, ps, c⟩))
    ∧ (∀ (b : Bool) (ps : List PathBuf) (c : InstanceContext),
      jlookup
        (match InstanceMetadata.toJson ⟨b, none, ps, c⟩ with
          | Json.obj fields => fields
          | _ => []) "instigating_source" = none)
    ∧ (∀ (b : Bool) (ps : List PathBuf) (c : InstanceContext),
      InstanceMetadata.fromJson (InstanceMetadata.toJson ⟨b, none, ps, c⟩)
        = some ⟨b, none, ps, c⟩)
    ∧ (∀ (b : Bool) (ps : List PathBuf) (c : InstanceContext),
      InstanceMetadata.fromJson
          (InstanceMetadata.toJson
            ⟨b, some (InstigatingSource.Path "/a/b"), ps, c⟩)
        = some ⟨b, some (InstigatingSource.Path "/a/b"), ps, c⟩) := by
  refine ⟨fun b ps c => ?_, fun b ps c => ?_, fun b ps c => metadata_round _,
    fun b ps c => metadata_round _⟩
  · simp [InstanceMetadata.toJson, Json.objKeys]
  · simp [InstanceMetadata.toJson, jlookup]

/-- C4: equality on `InstanceMetadata` (the derived `PartialEq`) is
structural: two values compare equal iff every field is equal; it is
reflexive, so identical builder call sequences give equal values; and
flipping `ignore_unknown_instances` alone makes the values unequal. -/
theorem C4_structural_equality :
    (∀ a b : InstanceMetadata,
      InstanceMetadata.eqv a b = true ↔
        (a.ignore_unknown_instances = b.ignore_unknown_instances
          ∧ a.instigating_source = b.instigating_source
          ∧ a.relevant_paths = b.relevant_paths
          ∧ a.context = b.context))
    ∧ (∀ a b : InstanceMetadata, InstanceMetadata.eqv a b = true ↔ a = b)
    ∧ (∀ m : InstanceMetadata, InstanceMetadata.eqv m m = true)
    ∧ (∀ m : InstanceMetadata,
      InstanceMetadata.eqv m
        (m.ignore_unknown_instances' (!m.ignore_unknown_instances))
        = false) := by
  refine ⟨instanceMetadata_eqv_iff, fun a b => ?_, fun m => ?_, fun m => ?_⟩
  · rw [instanceMetadata_eqv_iff]
    cases a
    cases b
    simp [and_assoc]
  · simp [instanceMetadata_eqv_iff]
  · simp only [InstanceMetadata.eqv, InstanceMetadata.ignore_unknown_instances']
    cases m.ignore_unknown_instances <;> simp

/-- C5: the `relevant_paths` builder stores exactly the given paths, in
order, with duplicates preserved (no deduplication); in particular a list
with a repeated path is stored verbatim. -/
theorem C5_relevant_paths_verbatim :
    (∀ (m : InstanceMetadata) (ps : List PathBuf),
      (m.relevant_paths' ps).relevant_paths = ps)
    ∧ (InstanceMetadata.new.relevant_paths'
        ["/proj/a.lua", "/proj/a.lua", "/proj/b.lua"]).relevant_paths
        = ["/proj/a.lua", "/proj/a.lua", "/proj/b.lua"] := by
  refine ⟨fun m ps => ?_, rfl⟩
  simp [InstanceMetadata.relevant_paths']

/-- C6: both `From` conversions (owned `PathBuf` and borrowed `&Path`)
produce the `Path` variant carrying exactly the given path, and neither
produces the `ProjectNode` variant. -/
theorem C6_from_is_path_variant :
    ∀ p : PathBuf,
      InstigatingSource.from_pathbuf p = InstigatingSource.Path p
      ∧ InstigatingSource.from_path_ref p = InstigatingSource.Path p
      ∧ (∀ (name : String) (node : ProjectNode),
          InstigatingSource.from_pathbuf p
            ≠ InstigatingSource.ProjectNode name node)
      ∧ (∀ (name : String) (node : ProjectNode),
          InstigatingSource.from_path_ref p
            ≠ InstigatingSource.ProjectNode name node) := by
  intro p
  refine ⟨rfl, rfl, fun name node h => ?_, fun name node h => ?_⟩ <;>
    exact InstigatingSource.noConfusion h

/-- C7: the default builder starting point `InstanceMetadata::new` has
`ignore_unknown_instances = false`, `instigating_source = None`, empty
`relevant_paths`, and the default `InstanceContext`. -/
theorem C7_new_defaults :
    InstanceMetadata.new.ignore_unknown_instances = false
    ∧ InstanceMetadata.new.instigating_source = none
    ∧ InstanceMetadata.new.relevant_paths = []
    ∧ InstanceMetadata.new.context = InstanceContext.default :=
  ⟨rfl, rfl, rfl, rfl⟩

/-- C8: `InstanceContext::default()` has an empty ignore-rule sequence, and
two independently created default contexts are structurally equal (both as
propositional equality and under the derived `PartialEq`). -/
theorem C8_default_context_empty :
    InstanceContext.default.ignore_paths = []
    ∧ InstanceContext.default = InstanceContext.default
    ∧ InstanceContext.eqv InstanceContext.default InstanceContext.default
        = true :=
  ⟨rfl, rfl, rfl⟩

/-- C9: `InstanceMetadata::default()` delegates to `InstanceMetadata::new()`;
the two entry points are definitionally the same value. -/
theorem C9_default_eq_new :
    InstanceMetadata.default = InstanceMetadata.new := rfl

/-- C10: the `instigating_source` builder always wraps its argument in
`Some`, every other builder step leaves `instigating_source` unchanged, and
the constructor starts it at `None` — so `None` arises only from
`new`/`default`. -/
theorem C10_source_always_some :
    (∀ (m : InstanceMetadata) (s : InstigatingSource),
      (m.instigating_source' s).instigating_source = some s)
    ∧ (∀ (m : InstanceMetadata) (s : InstigatingSource),
      (m.instigating_source' s).instigating_source ≠ none)
    ∧ (∀ (m : InstanceMetadata) (b : Bool),
      (m.ignore_unknown_instances' b).instigating_source
        = m.instigating_source)
    ∧ (∀ (m : InstanceMetadata) (ps : List PathBuf),
      (m.relevant_paths' ps).instigating_source = m.instigating_source)
    ∧ (∀ (m : InstanceMetadata) (c : InstanceContext),
      (m.context' c).instigating_source = m.instigating_source)
    ∧ InstanceMetadata.new.instigating_source = none := by
  refine ⟨fun m s => rfl, fun m s h => ?_, fun m b => rfl, fun m ps => rfl,
    fun m c => rfl, rfl⟩
  exact Option.noConfusion h

end Rojo
